import Mathlib

/-!
Verification of the TrendSpark startup-idea validation engine
(models.py, services/ai_service.py, services/search_service.py,
services/pipeline_service.py) against its natural-language specification.

The Python program is shallowly embedded: pure helpers become Lean
functions, external effects (the Gemini generative service, the Google
Custom Search transport, uuid generation) become explicit environment
records, and every `try/except` becomes a total function or an `Except`
value.  Python floats are modelled as exact rationals (`Rat`); the claims
only involve values such as 1.0, 7.5 and 12.0 that floats represent
exactly.  Pydantic validation of the response models is modelled by
explicit coercion functions returning `Except String _`.
-/

namespace TrendSpark

/-! ### Python string primitives

`isPyWs` is the ASCII part of Python's `str.split` / `str.strip` /
`re`'s `\s` whitespace class (the inputs in this development are ASCII).
-/

def isPyWs (c : Char) : Bool :=
  c == ' ' || c == '\t' || c == '\n' || c == '\r' || c == '\x0b' || c == '\x0c'

/-- Python `str.strip()`: drop leading and trailing whitespace. -/
def pyStrip (s : String) : String :=
  String.mk (((s.toList.dropWhile isPyWs).reverse.dropWhile isPyWs).reverse)

/-- Helper for `pySplit`: split a character list on whitespace runs,
accumulating the current (reversed) word. -/
def pySplitAux : List Char → List Char → List (List Char)
  | [], acc => if acc.isEmpty then [] else [acc.reverse]
  | c :: r, acc =>
    if isPyWs c then
      if acc.isEmpty then pySplitAux r [] else acc.reverse :: pySplitAux r []
    else pySplitAux r (c :: acc)

/-- Python `str.split()` with no argument: split on whitespace runs,
discarding empty pieces. -/
def pySplit (s : String) : List String :=
  (pySplitAux s.toList []).map String.mk

/-- Python truthiness of an `Optional[str]`: `None` and `""` are falsy. -/
def optFalsy : Option String → Bool
  | none => true
  | some s => s == ""

/-! ### The code-fence stripping regex of `safe_json_parse`

`ai_service.safe_json_parse` runs
`re.sub(r'^(?:\s*` ``` `(?:json)?\s*|\s*` ``` `)\s*|\s*(?:` ``` `(?:json)?\s*|\s*` ``` `)\s*$', '', text.strip(), flags=re.MULTILINE | re.IGNORECASE)`.
Alternative A (anchored at a line start) reduces to: maximal whitespace,
the three-backtick fence, an optional literal `json`, maximal whitespace.
Alternative B reduces to: maximal whitespace, the fence, an optional
literal `json`, then whitespace up to the greatest position at which `$`
holds (end of string, or just before a newline, per MULTILINE).  Both
require the backticks, so every match is nonempty, and since whitespace
never contains a backtick the backtracking collapses to the maximal-run
computations below.  `re.sub` scans left to right over the original
string; `stripFencesAux` mirrors that scan, tracking whether the current
position follows a newline (the `^` anchor).
(The IGNORECASE flag could also accept `JSON` etc.; only the lowercase
spelling is modelled, which is the spelling all claims use.)
-/

def tickCh : Char := Char.ofNat 96

def countWs : List Char → Nat
  | [] => 0
  | c :: r => if isPyWs c then countWs r + 1 else 0

def hasTicks (cs : List Char) : Bool :=
  cs.take 3 == [tickCh, tickCh, tickCh]

def hasJsonWord (cs : List Char) : Bool :=
  cs.take 4 == ['j', 's', 'o', 'n']

/-- `$` of a MULTILINE pattern: end of string or just before a newline. -/
def endOrNl : List Char → Bool
  | [] => true
  | c :: _ => c == '\n'

/-- Alternative A of the fence regex at a line start: returns the match
length. -/
def matchA (cs : List Char) : Option Nat :=
  let w1 := countWs cs
  let r1 := cs.drop w1
  if hasTicks r1 then
    let r2 := r1.drop 3
    let j := if hasJsonWord r2 then 4 else 0
    some (w1 + 3 + j + countWs (r2.drop j))
  else none

/-- Greedy trailing `\s*$`: the largest whitespace prefix of `r` after
which `$` holds. -/
def tailStop (r : List Char) : Option Nat :=
  ((List.range (countWs r + 1)).reverse).find? (fun k => endOrNl (r.drop k))

/-- Alternative B of the fence regex: returns the match length. -/
def matchB (cs : List Char) : Option Nat :=
  let w1 := countWs cs
  let r1 := cs.drop w1
  if hasTicks r1 then
    let r2 := r1.drop 3
    if hasJsonWord r2 then
      match tailStop (r2.drop 4) with
      | some k => some (w1 + 3 + 4 + k)
      | none => none
    else
      match tailStop r2 with
      | some k => some (w1 + 3 + k)
      | none => none
  else none

/-- Does the character just before the next scan position come from a
newline?  (Feeds the `^` anchor of MULTILINE.) -/
def lastIsNl (cs : List Char) (n : Nat) : Bool :=
  cs.get? (n - 1) == some '\n'

/-- The `re.sub` scan: at each position try alternative A (only at a line
start), then alternative B; on a match drop it, otherwise keep the
character. -/
def stripFencesAux : Nat → List Char → Bool → List Char
  | 0, cs, _ => cs
  | _ + 1, [], _ => []
  | f + 1, c :: rest, atLS =>
    match (if atLS then matchA (c :: rest) else none) with
    | some n => stripFencesAux f ((c :: rest).drop n) (lastIsNl (c :: rest) n)
    | none =>
      match matchB (c :: rest) with
      | some n => stripFencesAux f ((c :: rest).drop n) (lastIsNl (c :: rest) n)
      | none => c :: stripFencesAux f rest (c == '\n')

def stripFences (s : String) : String :=
  String.mk (stripFencesAux (s.toList.length + 1) s.toList true)

/-! ### `re.search(r'\{.*\}', cleaned, re.DOTALL)`

With DOTALL, the match (when it exists) runs from the first `{` of the
string to its last `}`; it exists precisely when some `}` occurs strictly
after the first `{`. -/

def lbrace : Char := Char.ofNat 123
def rbrace : Char := Char.ofNat 125

def braceSpan (s : String) : Option String :=
  let cs := s.toList
  match cs.findIdx? (fun c => c == lbrace), cs.reverse.findIdx? (fun c => c == rbrace) with
  | some i, some jr =>
    let j := cs.length - 1 - jr
    if i < j then some (String.mk ((cs.drop i).take (j - i + 1))) else none
  | _, _ => none

/-! ### JSON values and `json.loads`

`Json.obj` keeps members as an association list in source order; Python's
`dict` keeps the last binding of a duplicated key, which `pyDictGet`
reproduces by searching from the right.  Numbers are exact rationals
(Python floats are not distinguished for the values these claims use).
The non-finite literals `NaN`/`Infinity`/`-Infinity`, which CPython's
`json.loads` accepts, are not modelled: no rational represents them, and
no claim involves them. -/

inductive Json where
  | null
  | bool (b : Bool)
  | num (q : Rat)
  | str (s : String)
  | arr (elems : List Json)
  | obj (members : List (String × Json))

/-- JSON-grammar whitespace (what `json.loads` skips between tokens). -/
def jskipWs (cs : List Char) : List Char :=
  cs.dropWhile (fun c => c == ' ' || c == '\t' || c == '\n' || c == '\r')

def hexVal (c : Char) : Option Nat :=
  if '0' ≤ c ∧ c ≤ '9' then some (c.toNat - 48)
  else if 'a' ≤ c ∧ c ≤ 'f' then some (c.toNat - 87)
  else if 'A' ≤ c ∧ c ≤ 'F' then some (c.toNat - 55)
  else none

/-- JSON string body (after the opening quote): strict mode rejects raw
control characters; recognised escapes follow RFC 8259 (surrogate-pair
combination is not modelled). -/
def parseStringAux : Nat → List Char → List Char → Option (String × List Char)
  | 0, _, _ => none
  | f + 1, cs, acc =>
    match cs with
    | [] => none
    | '"' :: r => some (String.mk acc.reverse, r)
    | '\\' :: r =>
      match r with
      | '"' :: r2 => parseStringAux f r2 ('"' :: acc)
      | '\\' :: r2 => parseStringAux f r2 ('\\' :: acc)
      | '/' :: r2 => parseStringAux f r2 ('/' :: acc)
      | 'b' :: r2 => parseStringAux f r2 ('\x08' :: acc)
      | 'f' :: r2 => parseStringAux f r2 ('\x0c' :: acc)
      | 'n' :: r2 => parseStringAux f r2 ('\n' :: acc)
      | 'r' :: r2 => parseStringAux f r2 ('\r' :: acc)
      | 't' :: r2 => parseStringAux f r2 ('\t' :: acc)
      | 'u' :: a :: b :: c :: d :: r2 =>
        match hexVal a, hexVal b, hexVal c, hexVal d with
        | some x, some y, some z, some w =>
          parseStringAux f r2 (Char.ofNat (((x * 16 + y) * 16 + z) * 16 + w) :: acc)
        | _, _, _, _ => none
      | _ => none
    | c :: r => if c.toNat < 32 then none else parseStringAux f r (c :: acc)

def digitsToNat (ds : List Char) : Nat :=
  ds.foldl (fun a c => a * 10 + (c.toNat - 48)) 0

/-- JSON number grammar: `-? (0 | [1-9][0-9]*) (\.[0-9]+)? ([eE][+-]?[0-9]+)?`.
An `e` not followed by digits is left unconsumed (the enclosing
productions then reject it), matching CPython's regex-based scanner. -/
def parseNumber (cs : List Char) : Option (Rat × List Char) :=
  let signed := match cs with
    | '-' :: r => (true, r)
    | _ => (false, cs)
  let neg := signed.1
  let cs1 := signed.2
  let ids := cs1.takeWhile Char.isDigit
  let r1 := cs1.drop ids.length
  if ids.isEmpty then none
  else if 1 < ids.length ∧ ids.head? = some '0' then none
  else
    let fracPart : Option (List Char × List Char) := match r1 with
      | '.' :: rr =>
        let fs := rr.takeWhile Char.isDigit
        if fs.isEmpty then none else some (fs, rr.drop fs.length)
      | _ => some ([], r1)
    match fracPart with
    | none => none
    | some (fds, r2) =>
      let expPart : Int × List Char × List Char := match r2 with
        | 'e' :: rr | 'E' :: rr =>
          (match rr with
           | '+' :: r4 =>
             let ds := r4.takeWhile Char.isDigit
             if ds.isEmpty then (1, [], r2) else (1, ds, r4.drop ds.length)
           | '-' :: r4 =>
             let ds := r4.takeWhile Char.isDigit
             if ds.isEmpty then (1, [], r2) else (-1, ds, r4.drop ds.length)
           | _ =>
             let ds := rr.takeWhile Char.isDigit
             if ds.isEmpty then (1, [], r2) else (1, ds, rr.drop ds.length))
        | _ => (1, [], r2)
      let mant : Int :=
        (if neg then -1 else 1) * ((digitsToNat ids * 10 ^ fds.length + digitsToNat fds : Nat) : Int)
      let expN := digitsToNat expPart.2.1
      let q : Rat :=
        if 0 ≤ expPart.1 then mkRat (mant * (10 ^ expN : Nat)) (10 ^ fds.length)
        else mkRat mant (10 ^ fds.length * 10 ^ expN)
      some (q, expPart.2.2)

mutual

def parseVal : Nat → List Char → Option (Json × List Char)
  | 0, _ => none
  | f + 1, cs0 =>
    let cs := jskipWs cs0
    match cs with
    | [] => none
    | c :: r =>
      if c = lbrace then
        let r1 := jskipWs r
        match r1 with
        | d :: r2 => if d = rbrace then some (Json.obj [], r2) else parseMembers f r1 []
        | [] => none
      else if c = '[' then
        let r1 := jskipWs r
        match r1 with
        | d :: r2 => if d = ']' then some (Json.arr [], r2) else parseElems f r1 []
        | [] => none
      else if c = '"' then
        match parseStringAux (r.length + 1) r [] with
        | some (s, r2) => some (Json.str s, r2)
        | none => none
      else if c = 't' then
        match cs with
        | 't' :: 'r' :: 'u' :: 'e' :: r2 => some (Json.bool true, r2)
        | _ => none
      else if c = 'f' then
        match cs with
        | 'f' :: 'a' :: 'l' :: 's' :: 'e' :: r2 => some (Json.bool false, r2)
        | _ => none
      else if c = 'n' then
        match cs with
        | 'n' :: 'u' :: 'l' :: 'l' :: r2 => some (Json.null, r2)
        | _ => none
      else if c = '-' ∨ c.isDigit then
        match parseNumber cs with
        | some (q, r2) => some (Json.num q, r2)
        | none => none
      else none

def parseMembers : Nat → List Char → List (String × Json) → Option (Json × List Char)
  | 0, _, _ => none
  | f + 1, cs0, acc =>
    match jskipWs cs0 with
    | '"' :: r =>
      match parseStringAux (r.length + 1) r [] with
      | some (k, r2) =>
        match jskipWs r2 with
        | ':' :: r3 =>
          match parseVal f r3 with
          | some (v, r4) =>
            match jskipWs r4 with
            | ',' :: r5 => parseMembers f r5 (acc ++ [(k, v)])
            | d :: r5 =>
              if d = rbrace then some (Json.obj (acc ++ [(k, v)]), r5) else none
            | [] => none
          | none => none
        | _ => none
      | none => none
    | _ => none

def parseElems : Nat → List Char → List Json → Option (Json × List Char)
  | 0, _, _ => none
  | f + 1, cs0, acc =>
    match parseVal f cs0 with
    | some (v, r) =>
      match jskipWs r with
      | ',' :: r2 => parseElems f r2 (acc ++ [v])
      | ']' :: r2 => some (Json.arr (acc ++ [v]), r2)
      | _ => none
    | none => none

end

/-- `json.loads`: parse one value and require only whitespace after it. -/
def jsonParse (s : String) : Option Json :=
  match parseVal (2 * s.length + 8) s.toList with
  | some (v, r) => if jskipWs r = [] then some v else none
  | none => none

/-- `d.get(k, default)` on the dict built from `kvs` (last binding of a
duplicated key wins, as in Python dict construction). -/
def pyDictGet (kvs : List (String × Json)) (k : String) (d : Json) : Json :=
  match kvs.reverse.find? (fun p => p.1 == k) with
  | some p => p.2
  | none => d

/-- `k in d` for the dict built from `kvs`. -/
def hasKey (kvs : List (String × Json)) (k : String) : Bool :=
  (kvs.find? (fun p => p.1 == k)).isSome

/-! ### The data model (models.py)

Pydantic models become plain structures; `Optional[str]` becomes
`Option String`.  The `ge=1.0, le=10.0` constraint on
`ValidationReport.overall_score` is enforced at construction by
`buildValidationReport` below, exactly as pydantic enforces it when
`ValidationReport(...)` is called — by rejecting, not clamping. -/

structure IdeaInput where
  title : String
  description : String
  industry : Option String
  target_audience : Option String
deriving DecidableEq

structure SWOT where
  strengths : List String
  weaknesses : List String
  opportunities : List String
  threats : List String
deriving DecidableEq

structure Competitor where
  name : String
  url : Option String
  snippet : Option String
deriving DecidableEq

structure MarketAnalysis where
  audience_profile : String
  potential_keywords : List String
deriving DecidableEq

structure ValidationReport where
  report_id : String
  idea_name : String
  overall_score : Rat
  executive_summary : String
  swot_analysis : SWOT
  market_analysis : MarketAnalysis
  competitor_analysis : List Competitor
  recommended_next_steps : List String
deriving DecidableEq

/-! ### Pydantic field coercions

Models how pydantic v2 validates the field types the services feed it
from decoded JSON: a `str` field accepts exactly a JSON string (`null`
is rejected for a required `str`, accepted for `Optional[str]`); a
`List[str]` field accepts exactly an array of strings.  Extra dict keys
are ignored (pydantic's default), which `coerceSWOT`/`coerceMarket`
reproduce by looking up only their own field names. -/

def coerceStr (j : Json) : Except String String :=
  match j with
  | Json.str s => Except.ok s
  | _ => Except.error "ValidationError: str type expected"

def coerceOptStr (j : Json) : Except String (Option String) :=
  match j with
  | Json.str s => Except.ok (some s)
  | Json.null => Except.ok none
  | _ => Except.error "ValidationError: str or none expected"

def coerceStrList (j : Json) : Except String (List String) :=
  match j with
  | Json.arr xs =>
    xs.mapM (fun x =>
      match x with
      | Json.str s => Except.ok s
      | _ => Except.error "ValidationError: str type expected")
  | _ => Except.error "ValidationError: list type expected"

/-- `SWOT(**data)`: each list field defaults to `[]` when its key is
absent (`default_factory=list`). -/
def coerceSWOT (kvs : List (String × Json)) : Except String SWOT := do
  let s ← coerceStrList (pyDictGet kvs "strengths" (Json.arr []))
  let w ← coerceStrList (pyDictGet kvs "weaknesses" (Json.arr []))
  let o ← coerceStrList (pyDictGet kvs "opportunities" (Json.arr []))
  let t ← coerceStrList (pyDictGet kvs "threats" (Json.arr []))
  return ⟨s, w, o, t⟩

/-- `MarketAnalysis(**data)` with the field defaults of models.py. -/
def coerceMarket (kvs : List (String × Json)) : Except String MarketAnalysis := do
  let a ← coerceStr (pyDictGet kvs "audience_profile"
            (Json.str "Not enough data to generate profile"))
  let k ← coerceStrList (pyDictGet kvs "potential_keywords" (Json.arr []))
  return ⟨a, k⟩

/-- Python `float(x)` on a decoded JSON value (or a `.get` default):
numbers pass through, booleans become 0/1, numeric strings are parsed,
everything else raises. -/
def parseFloatLit (s : String) : Option Rat :=
  let cs := (pyStrip s).toList
  let signed : Int × List Char := match cs with
    | '+' :: r => (1, r)
    | '-' :: r => (-1, r)
    | _ => (1, cs)
  let cs1 := signed.2
  let ids := cs1.takeWhile Char.isDigit
  let r1 := cs1.drop ids.length
  let fracPart : List Char × List Char := match r1 with
    | '.' :: rr => (rr.takeWhile Char.isDigit, rr.drop (rr.takeWhile Char.isDigit).length)
    | _ => ([], r1)
  let fds := fracPart.1
  let r2 := fracPart.2
  if ids.isEmpty ∧ fds.isEmpty then none
  else
    let expPart : Option (Int × List Char) := match r2 with
      | 'e' :: rr | 'E' :: rr =>
        (match rr with
         | '+' :: r4 =>
           let ds := r4.takeWhile Char.isDigit
           if ds.isEmpty ∨ (r4.drop ds.length).isEmpty = false then none
           else some (1, ds)
         | '-' :: r4 =>
           let ds := r4.takeWhile Char.isDigit
           if ds.isEmpty ∨ (r4.drop ds.length).isEmpty = false then none
           else some (-1, ds)
         | _ =>
           let ds := rr.takeWhile Char.isDigit
           if ds.isEmpty ∨ (rr.drop ds.length).isEmpty = false then none
           else some (1, ds))
      | [] => some (1, [])
      | _ => none
    match expPart with
    | none => none
    | some (es, eds) =>
      let mant : Int :=
        signed.1 * ((digitsToNat ids * 10 ^ fds.length + digitsToNat fds : Nat) : Int)
      let expN := digitsToNat eds
      some (if 0 ≤ es then mkRat (mant * (10 ^ expN : Nat)) (10 ^ fds.length)
            else mkRat mant (10 ^ fds.length * 10 ^ expN))

def pyFloat (j : Json) : Except String Rat :=
  match j with
  | Json.num q => Except.ok q
  | Json.bool b => Except.ok (if b then 1 else 0)
  | Json.str s =>
    match parseFloatLit s with
    | some q => Except.ok q
    | none => Except.error "ValueError: could not convert string to float"
  | Json.null => Except.error "TypeError: float() argument must be a string or a real number, not NoneType"
  | _ => Except.error "TypeError: float() argument must be a string or a real number"

/-! ### ai_service.safe_json_parse -/

/-- The candidate JSON text `safe_json_parse` feeds to `json.loads`:
strip, remove code fences, then narrow to the first-to-last brace span
when one exists. -/
def extractCandidate (text : String) : String :=
  let cleaned := stripFences (pyStrip text)
  match braceSpan cleaned with
  | some sp => sp
  | none => cleaned

/-- `ai_service.safe_json_parse`: `None` for an empty input; otherwise
decode the candidate span and keep the result only if it is a dict.
Total — every `except` arm of the source returns `None`. -/
def safe_json_parse (text : String) : Option (List (String × Json)) :=
  if text = "" then none
  else
    match jsonParse (extractCandidate text) with
    | some (Json.obj kvs) => some kvs
    | some _ => none
    | none => none

/-! ### ai_service: model probing and the two analysis operations

External behaviour is an explicit environment: `probe name` is the
outcome of the trivial `generate_content("Say hello")` call on candidate
`name`, and the three `*Resp` fields are the outcomes of the three
pipeline generation calls (`GenOutcome.text s` models a response whose
`.text` is `s`; `GenOutcome.exn msg` models a raised exception with
`str(e) = msg`).  The process-wide `_current_model` cache is not
modelled: under a fixed environment the cached model is exactly the
first successful probe, so `get_model` is a pure function of the
environment.  The error-classification branches of `get_model`'s
`except` block only choose log messages — every branch proceeds to the
next candidate — so they are not modelled either. -/

inductive GenOutcome where
  | text (s : String)
  | exn (msg : String)

structure AIEnv where
  probe : String → GenOutcome
  swotResp : GenOutcome
  marketResp : GenOutcome
  finalResp : GenOutcome

def MODEL_CANDIDATES : List String :=
  ["gemini-2.5-flash", "gemini-2.5-pro", "gemini-2.0-flash", "gemini-2.0-flash-001",
   "gemini-1.5-flash", "gemini-1.5-flash-001", "gemini-1.5-pro", "gemini-flash-latest"]

/-- A candidate is usable when its probe answers with nonempty text
(`if test_response.text:`). -/
def probeOk (env : AIEnv) (name : String) : Bool :=
  match env.probe name with
  | GenOutcome.text s => s != ""
  | GenOutcome.exn _ => false

/-- The `str()` of the `RuntimeError` raised when no candidate works. -/
def noModelMsg : String :=
  "No usable Gemini model could be initialized. Check your API key, quota, and region restrictions."

/-- `ai_service.get_model`: first usable candidate, else the
`RuntimeError`. -/
def get_model (env : AIEnv) : Except String String :=
  match MODEL_CANDIDATES.find? (probeOk env) with
  | some name => Except.ok name
  | none => Except.error noModelMsg

def swotDecodeFallback : SWOT :=
  ⟨["Could not generate SWOT analysis"], ["AI response was malformed"], [], []⟩

def swotExnFallback (e : String) : SWOT :=
  ⟨["Service temporarily unavailable"], [e], [], []⟩

/-- `ai_service.get_swot_analysis`.  The prompt built from `idea` only
influences the external response, which the environment supplies, so the
idea does not otherwise enter the computation.  The `try` block spans
`get_model`, the generation call and `SWOT(**data)`, so all three feed
the exception fallback; `if data and isinstance(data, dict)` sends
`None` and the empty dict to the malformed-JSON fallback. -/
def get_swot_analysis (env : AIEnv) (_idea : IdeaInput) : SWOT :=
  match get_model env with
  | Except.error e => swotExnFallback e
  | Except.ok _ =>
    match env.swotResp with
    | GenOutcome.exn e => swotExnFallback e
    | GenOutcome.text t =>
      match safe_json_parse t with
      | some kvs =>
        if kvs.isEmpty then swotDecodeFallback
        else
          match coerceSWOT kvs with
          | Except.ok s => s
          | Except.error e => swotExnFallback e
      | none => swotDecodeFallback

def marketDecodeFallback : MarketAnalysis :=
  ⟨"Could not generate profile due to formatting issue", []⟩

def marketExnFallback (e : String) : MarketAnalysis :=
  ⟨"Service error: " ++ e, []⟩

/-- `ai_service.get_market_analysis`, same shape as the SWOT operation. -/
def get_market_analysis (env : AIEnv) (_idea : IdeaInput) : MarketAnalysis :=
  match get_model env with
  | Except.error e => marketExnFallback e
  | Except.ok _ =>
    match env.marketResp with
    | GenOutcome.exn e => marketExnFallback e
    | GenOutcome.text t =>
      match safe_json_parse t with
      | some kvs =>
        if kvs.isEmpty then marketDecodeFallback
        else
          match coerceMarket kvs with
          | Except.ok m => m
          | Except.error e => marketExnFallback e
      | none => marketDecodeFallback

/-! ### search_service.get_competitor_search

The transport is an explicit outcome: `NetOutcome.exn` models a raised
`requests` exception, `NetOutcome.response status body` a completed HTTP
response.  `requests`' `raise_for_status` raises exactly for status
codes in [400, 600).  The function returns a `Bool` alongside the list
recording whether `requests.get` was reached, so the no-network
short-circuits are observable.  All `except` arms return `[]`, making
the embedding total. -/

inductive NetOutcome where
  | exn (msg : String)
  | response (status : Nat) (body : String)

structure SearchEnv where
  key : Option String
  cx : Option String
  net : NetOutcome

/-- One result item to one `Competitor`: missing `snippet`/`title`/`link`
keys take the literal defaults of the source; the snippet is normalised
with `" ".join(snippet.split())`; a non-string snippet raises
(`.split()` on a non-`str`), a non-string title fails pydantic's `str`
field, and a null link is accepted by the `Optional[str]` field.  Any
error here aborts the whole search (`except Exception` returns `[]`). -/
def convertItem (j : Json) : Except String Competitor :=
  match j with
  | Json.obj kvs =>
    match pyDictGet kvs "snippet" (Json.str "No description available") with
    | Json.str s0 =>
      let snip := " ".intercalate (pySplit s0)
      match coerceStr (pyDictGet kvs "title" (Json.str "Untitled Result")) with
      | Except.error e => Except.error e
      | Except.ok nm =>
        match coerceOptStr (pyDictGet kvs "link" (Json.str "#")) with
        | Except.error e => Except.error e
        | Except.ok url => Except.ok ⟨nm, url, some snip⟩
    | _ => Except.error "AttributeError: object has no attribute split"
  | _ => Except.error "AttributeError: object has no attribute get"

def convertItems : List Json → Except String (List Competitor)
  | [] => Except.ok []
  | j :: r =>
    match convertItem j with
    | Except.error e => Except.error e
    | Except.ok c =>
      match convertItems r with
      | Except.error e => Except.error e
      | Except.ok cs => Except.ok (c :: cs)

/-- Processing of the transport outcome inside the `try` block: HTTP
errors, decode failures, a non-dict body, a non-list `items` value and
item-conversion failures all collapse to `[]` through the `except`
arms. -/
def searchResults (net : NetOutcome) (max_results : Nat) : List Competitor :=
  match net with
  | NetOutcome.exn _ => []
  | NetOutcome.response status body =>
    if 400 ≤ status ∧ status < 600 then []
    else
      match jsonParse body with
      | none => []
      | some (Json.obj kvs) =>
        match pyDictGet kvs "items" (Json.arr []) with
        | Json.arr items =>
          match convertItems (items.take max_results) with
          | Except.ok cs => cs
          | Except.error _ => []
        | _ => []
      | some _ => []

/-- The disjunctive query of `get_competitor_search`: top five keywords,
blank ones dropped, each quoted, joined with `" OR "`. -/
def searchQuery (keywords : List String) : String :=
  " OR ".intercalate
    (((keywords.take 5).filter (fun k => pyStrip k != "")).map (fun k => "\"" ++ k ++ "\""))

/-- `search_service.get_competitor_search`.  The first component is the
returned list, the second records whether a network request was issued.
The query's content only matters through the emptiness re-check. -/
def get_competitor_search (env : SearchEnv) (keywords : List String)
    (max_results : Nat := 6) : List Competitor × Bool :=
  if keywords.isEmpty || optFalsy env.key || optFalsy env.cx then ([], false)
  else if pyStrip (searchQuery keywords) = "" then ([], false)
  else (searchResults env.net max_results, true)

/-! ### pipeline_service.run_validation_pipeline

`uuid.uuid4()` is supplied by the environment.  The final-summary `try`
block spans `get_model`, the generation call and the dict check on the
parse result, each failure replacing `final_data` with the fixed
fallback dict.  Report assembly sits outside every `try`: `float(...)`
and pydantic validation failures (including the `ge=1.0, le=10.0` score
bounds) propagate to the caller as `Except.error`. -/

structure PipelineEnv where
  ai : AIEnv
  search : SearchEnv
  reportId : String

def finalFallbackData : List (String × Json) :=
  [("executive_summary", Json.str "Unable to generate final summary due to an error."),
   ("overall_score", Json.num 1),
   ("recommended_next_steps", Json.arr
     [Json.str "Verify the AI service configuration",
      Json.str "Check prompt formatting and model availability",
      Json.str "Test with a simpler idea first"])]

/-- `ValidationReport(...)` of the final assembly: `.get` defaults of
the source, `float()` coercion of the score, and pydantic validation of
every field, rejecting an out-of-range score. -/
def buildValidationReport (rid idea_title : String) (final_data : List (String × Json))
    (sw : SWOT) (mk : MarketAnalysis) (comps : List Competitor) :
    Except String ValidationReport :=
  match pyFloat (pyDictGet final_data "overall_score" (Json.num 1)) with
  | Except.error e => Except.error e
  | Except.ok score =>
    match coerceStr (pyDictGet final_data "executive_summary"
            (Json.str "No summary could be generated.")) with
    | Except.error e => Except.error e
    | Except.ok summary =>
      match coerceStrList (pyDictGet final_data "recommended_next_steps" (Json.arr [])) with
      | Except.error e => Except.error e
      | Except.ok steps =>
        if 1 ≤ score ∧ score ≤ 10 then
          Except.ok ⟨rid, idea_title, score, summary, sw, mk, comps, steps⟩
        else Except.error "ValidationError: overall_score out of range"

/-- The final-summary `try` block: `get_model`, the generation call and
`safe_json_parse` with the dict check; any failure yields the fallback
dict. -/
def finalSummaryData (env : AIEnv) : List (String × Json) :=
  match get_model env with
  | Except.error _ => finalFallbackData
  | Except.ok _ =>
    match env.finalResp with
    | GenOutcome.exn _ => finalFallbackData
    | GenOutcome.text t =>
      match safe_json_parse t with
      | some d => d
      | none => finalFallbackData

/-- The normalised display title:
`idea.title.strip() if idea.title else "Untitled Idea"` — Python
truthiness of the raw title is tested before stripping. -/
def normTitle (t : String) : String :=
  if t = "" then "Untitled Idea" else pyStrip t

/-- `pipeline_service.run_validation_pipeline`. -/
def run_validation_pipeline (env : PipelineEnv) (idea : IdeaInput) :
    Except String ValidationReport :=
  let idea_title := normTitle idea.title
  let swot_data := get_swot_analysis env.ai idea
  let market_data := get_market_analysis env.ai idea
  let competitor_data := (get_competitor_search env.search market_data.potential_keywords 6).1
  let final_data := finalSummaryData env.ai
  buildValidationReport env.reportId idea_title final_data swot_data market_data competitor_data

/-- `Except.isOk` as a local helper (keeps statements about which
pipeline runs fail or succeed independent of library naming). -/
def exceptOk {α : Type} : Except String α → Bool
  | Except.ok _ => true
  | Except.error _ => false

/-! ### Shared lemmas -/

/-- Everything report assembly guarantees about a successfully built
report: the pass-through fields, the coercion equations for the three
summary-derived fields, and the score bounds enforced by pydantic. -/
theorem buildValidationReport_fields {rid nm : String} {fd : List (String × Json)}
    {sw : SWOT} {mk : MarketAnalysis} {cs : List Competitor} {r : ValidationReport}
    (h : buildValidationReport rid nm fd sw mk cs = Except.ok r) :
    r.report_id = rid ∧ r.idea_name = nm ∧ r.swot_analysis = sw ∧
    r.market_analysis = mk ∧ r.competitor_analysis = cs ∧
    pyFloat (pyDictGet fd "overall_score" (Json.num 1)) = Except.ok r.overall_score ∧
    coerceStr (pyDictGet fd "executive_summary" (Json.str "No summary could be generated."))
      = Except.ok r.executive_summary ∧
    coerceStrList (pyDictGet fd "recommended_next_steps" (Json.arr []))
      = Except.ok r.recommended_next_steps ∧
    (1 ≤ r.overall_score ∧ r.overall_score ≤ 10) := by
  unfold buildValidationReport at h
  split at h
  · exact absurd h (by simp)
  rename_i score hf
  split at h
  · exact absurd h (by simp)
  rename_i summary hs
  split at h
  · exact absurd h (by simp)
  rename_i steps ht
  split at h
  · rename_i hb
    injection h with h'
    subst h'
    exact ⟨rfl, rfl, rfl, rfl, rfl, hf, hs, ht, hb⟩
  · exact absurd h (by simp)

/-- The pipeline in applied form: its result is exactly the report
assembly on the stage outputs. -/
theorem run_validation_pipeline_eq (env : PipelineEnv) (idea : IdeaInput) :
    run_validation_pipeline env idea =
      buildValidationReport env.reportId (normTitle idea.title) (finalSummaryData env.ai)
        (get_swot_analysis env.ai idea) (get_market_analysis env.ai idea)
        ((get_competitor_search env.search
            (get_market_analysis env.ai idea).potential_keywords 6).1) := rfl

/-- A key absent from the dict makes `.get` return its default. -/
theorem pyDictGet_of_hasKey_false {kvs : List (String × Json)} {k : String}
    (h : hasKey kvs k = false) (d : Json) : pyDictGet kvs k d = d := by
  unfold hasKey at h
  unfold pyDictGet
  have hn : kvs.find? (fun p => p.1 == k) = none := by
    cases hfind : kvs.find? (fun p => p.1 == k) with
    | none => rfl
    | some p => rw [hfind] at h; simp at h
  have : kvs.reverse.find? (fun p => p.1 == k) = none := by
    rw [List.find?_eq_none] at hn ⊢
    intro x hx
    exact hn x (List.mem_reverse.mp hx)
  rw [this]

/-- Item conversion is one-to-one in length. -/
theorem convertItems_length : ∀ {l : List Json} {cs : List Competitor},
    convertItems l = Except.ok cs → cs.length = l.length := by
  intro l
  induction l with
  | nil => intro cs h; unfold convertItems at h; injection h with h'; subst h'; rfl
  | cons j r ih =>
    intro cs h
    unfold convertItems at h
    split at h
    · exact absurd h (by simp)
    rename_i c hc
    split at h
    · exact absurd h (by simp)
    rename_i cs' hcs
    injection h with h'
    subst h'
    simp [ih hcs]

/-- Every converted competitor comes from some item of the list. -/
theorem convertItems_mem : ∀ {l : List Json} {cs : List Competitor},
    convertItems l = Except.ok cs → ∀ c ∈ cs, ∃ j ∈ l, convertItem j = Except.ok c := by
  intro l
  induction l with
  | nil =>
    intro cs h c hc
    unfold convertItems at h; injection h with h'; subst h'; simp at hc
  | cons j r ih =>
    intro cs h c hc
    unfold convertItems at h
    split at h
    · exact absurd h (by simp)
    rename_i c0 hc0
    split at h
    · exact absurd h (by simp)
    rename_i cs' hcs
    injection h with h'
    subst h'
    rcases List.mem_cons.mp hc with hceq | hmem
    · exact ⟨j, List.mem_cons_self _ _, hceq ▸ hc0⟩
    · rcases ih hcs c hmem with ⟨j', hj', hcj'⟩
      exact ⟨j', List.mem_cons_of_mem _ hj', hcj'⟩

/-- A successfully converted competitor always has a snippet, and that
snippet is the whitespace-normalisation of some source text. -/
theorem convertItem_snippet {j : Json} {c : Competitor}
    (h : convertItem j = Except.ok c) :
    c.snippet.isSome = true ∧ ∃ s, c.snippet = some (" ".intercalate (pySplit s)) := by
  unfold convertItem at h
  split at h
  swap
  · exact absurd h (by simp)
  rename_i kvs heqj
  split at h
  swap
  · exact absurd h (by simp)
  rename_i s0 heqs
  split at h
  · exact absurd h (by simp)
  rename_i nm hnm
  split at h
  · exact absurd h (by simp)
  rename_i url hurl
  injection h with h'
  subst h'
  exact ⟨rfl, s0, rfl⟩

/-- `searchResults` caps the list at `max_results` and only produces
snippet-normalised competitors. -/
theorem searchResults_shape (net : NetOutcome) (mr : Nat) :
    (searchResults net mr).length ≤ mr ∧
    ∀ c ∈ searchResults net mr,
      c.snippet.isSome = true ∧ ∃ s, c.snippet = some (" ".intercalate (pySplit s)) := by
  unfold searchResults
  split
  · simp
  · split
    · simp
    · split
      · simp
      · split
        · rename_i items heqi
          split
          · rename_i cs hcs
            refine ⟨?_, fun c hc => convertItem_snippet (Exists.choose_spec (convertItems_mem hcs c hc)).2⟩
            calc cs.length = (items.take mr).length := convertItems_length hcs
              _ ≤ mr := by simp [List.length_take]
          · simp
        · simp
      · simp

/-- The returned list of `get_competitor_search` is either a
short-circuit `[]` or the processed transport outcome. -/
theorem get_competitor_search_fst (env : SearchEnv) (kws : List String) (mr : Nat) :
    (get_competitor_search env kws mr).1 = [] ∨
    (get_competitor_search env kws mr).1 = searchResults env.net mr := by
  unfold get_competitor_search
  split
  · exact Or.inl rfl
  · split
    · exact Or.inl rfl
    · exact Or.inr rfl

theorem searchResults_http_error {st : Nat} {body : String} (mr : Nat)
    (h4 : 400 ≤ st) (h6 : st < 600) :
    searchResults (NetOutcome.response st body) mr = [] := by
  simp only [searchResults]
  rw [if_pos ⟨h4, h6⟩]

theorem searchResults_decode_failure {st : Nat} {body : String} (mr : Nat)
    (hj : jsonParse body = none) :
    searchResults (NetOutcome.response st body) mr = [] := by
  simp only [searchResults]
  split
  · rfl
  · simp only [hj]

theorem searchResults_empty_items {st : Nat} {body : String} {kvs : List (String × Json)}
    (mr : Nat) (hj : jsonParse body = some (Json.obj kvs))
    (hi : pyDictGet kvs "items" (Json.arr []) = Json.arr []) :
    searchResults (NetOutcome.response st body) mr = [] := by
  simp only [searchResults]
  split
  · rfl
  · simp [hj, hi, List.take_nil, convertItems]

/-! ### Concrete scenario environments -/

def ideaTest : IdeaInput := ⟨"Test", "A widget that does X", none, none⟩

def ideaWsTitle : IdeaInput := ⟨"   ", "d", none, none⟩

def ideaPadded : IdeaInput := ⟨"  My Idea  ", "d", none, none⟩

/-- The well-formed mocked generative responses of the spec's
end-to-end scenario. -/
def aiHappy : AIEnv :=
  { probe := fun _ => GenOutcome.text "Hello",
    swotResp := GenOutcome.text "\x7b\"strengths\": [\"a\"], \"weaknesses\": [\"b\"], \"opportunities\": [\"c\"], \"threats\": [\"d\"]\x7d",
    marketResp := GenOutcome.text "\x7b\"audience_profile\": \"profile\", \"potential_keywords\": [\"k1\", \"k2\"]\x7d",
    finalResp := GenOutcome.text "\x7b\"executive_summary\": \"sum\", \"overall_score\": 7.5, \"recommended_next_steps\": [\"s1\", \"s2\", \"s3\"]\x7d" }

/-- Two mocked competitor result items (the snippet of the first has a
double space, exercising whitespace normalisation). -/
def bodyTwoItems : String :=
  "\x7b\"items\": [\x7b\"title\": \"Notion\", \"link\": \"https://notion.so\", \"snippet\": \"All-in-one  workspace\"\x7d, \x7b\"title\": \"Quizlet\", \"link\": \"https://quizlet.com\", \"snippet\": \"Flashcards\"\x7d]\x7d"

def searchHappy : SearchEnv := ⟨some "KEY", some "CX", NetOutcome.response 200 bodyTwoItems⟩

def envHappy : PipelineEnv := ⟨aiHappy, searchHappy, "rid-1"⟩

/-- The report the happy-path pipeline assembles (7.5 = 15/2 as an
exact rational). -/
def reportHappy : ValidationReport :=
  ⟨"rid-1", "Test", mkRat 15 2, "sum", ⟨["a"], ["b"], ["c"], ["d"]⟩, ⟨"profile", ["k1", "k2"]⟩,
   [⟨"Notion", some "https://notion.so", some "All-in-one workspace"⟩,
    ⟨"Quizlet", some "https://quizlet.com", some "Flashcards"⟩],
   ["s1", "s2", "s3"]⟩

/-- Generative environment whose final summary parses to an
out-of-range score of 12.0. -/
def aiScore12 : AIEnv :=
  { probe := fun _ => GenOutcome.text "Hello",
    swotResp := GenOutcome.exn "boom",
    marketResp := GenOutcome.exn "boom",
    finalResp := GenOutcome.text "\x7b\"executive_summary\": \"sum\", \"overall_score\": 12.0, \"recommended_next_steps\": []\x7d" }

def envScore12 : PipelineEnv := ⟨aiScore12, ⟨none, none, NetOutcome.exn "down"⟩, "rid-2"⟩

/-- Environment where every model candidate's probe raises. -/
def aiAllFail : AIEnv :=
  { probe := fun _ => GenOutcome.exn "429 quota exceeded",
    swotResp := GenOutcome.text "ignored",
    marketResp := GenOutcome.text "ignored",
    finalResp := GenOutcome.text "ignored" }

def envAllFail : PipelineEnv :=
  ⟨aiAllFail, ⟨some "K", some "C", NetOutcome.response 200 bodyTwoItems⟩, "rid-3"⟩

/-- The fully-degraded report the pipeline assembles when no model
initialises. -/
def reportAllFail : ValidationReport :=
  ⟨"rid-3", "Test", 1, "Unable to generate final summary due to an error.",
   ⟨["Service temporarily unavailable"], [noModelMsg], [], []⟩,
   ⟨"Service error: " ++ noModelMsg, []⟩, [],
   ["Verify the AI service configuration",
    "Check prompt formatting and model availability",
    "Test with a simpler idea first"]⟩

/-- Final summary parses to a dict holding only `overall_score`. -/
def aiMissingKeys : AIEnv :=
  { aiHappy with finalResp := GenOutcome.text "\x7b\"overall_score\": 7.0\x7d" }

def envMissingKeys : PipelineEnv := ⟨aiMissingKeys, ⟨none, none, NetOutcome.exn "x"⟩, "rid-4"⟩

def reportMissingKeys : ValidationReport :=
  ⟨"rid-4", "Test", 7, "No summary could be generated.",
   ⟨["a"], ["b"], ["c"], ["d"]⟩, ⟨"profile", ["k1", "k2"]⟩, [], []⟩

/-! ### Claim theorems -/

/-- C1, counterexample: with the final summary parsed to
`overall_score = 12.0`, the pipeline does not clamp and does not return
a report — report construction fails, so the claimed for-all-inputs
in-range report is false. -/
theorem C1_out_of_range_score_raises :
    exceptOk (run_validation_pipeline envScore12 ideaTest) = false := rfl

/-- C1, amended: whenever `run_validation_pipeline` does return a
report, its `overall_score` lies in [1.0, 10.0]; a parsed out-of-range
value makes report construction fail (pydantic `ge`/`le` reject rather
than clamp), it never passes through. -/
theorem C1_score_bounds (env : PipelineEnv) (idea : IdeaInput) (r : ValidationReport)
    (h : run_validation_pipeline env idea = Except.ok r) :
    1 ≤ r.overall_score ∧ r.overall_score ≤ 10 := by
  rw [run_validation_pipeline_eq] at h
  exact (buildValidationReport_fields h).2.2.2.2.2.2.2.2

theorem C1_score_bounds_witness :
    run_validation_pipeline envAllFail ideaTest = Except.ok reportAllFail ∧
    (1 ≤ reportAllFail.overall_score ∧ reportAllFail.overall_score ≤ 10) :=
  ⟨rfl, C1_score_bounds envAllFail ideaTest reportAllFail rfl⟩

/-- C2, counterexample: when every candidate model fails
initialization, `run_validation_pipeline` still returns a complete
report — the `RuntimeError` of `get_model` is swallowed by the
`except Exception` arms of all three call sites, so no hard
initialization error reaches the pipeline's caller. -/
theorem C2_total_model_failure_returns_ok :
    exceptOk (run_validation_pipeline envAllFail ideaTest) = true := rfl

/-- C2, amended: when every candidate fails its probe, `get_model`
itself raises the hard initialization error, but every caller catches
it: `run_validation_pipeline` still returns the fully-degraded yet
complete report below (diagnostic SWOT and market fallbacks embedding
the error text, no competitors, fixed final-summary fallback with
score 1.0). -/
theorem C2_init_failure_contained (env : PipelineEnv) (idea : IdeaInput)
    (hall : ∀ name, probeOk env.ai name = false) :
    get_model env.ai = Except.error noModelMsg ∧
    run_validation_pipeline env idea = Except.ok
      ⟨env.reportId, normTitle idea.title, 1,
       "Unable to generate final summary due to an error.",
       ⟨["Service temporarily unavailable"], [noModelMsg], [], []⟩,
       ⟨"Service error: " ++ noModelMsg, []⟩, [],
       ["Verify the AI service configuration",
        "Check prompt formatting and model availability",
        "Test with a simpler idea first"]⟩ := by
  have hgm : get_model env.ai = Except.error noModelMsg := by
    unfold get_model
    have hnone : MODEL_CANDIDATES.find? (probeOk env.ai) = none :=
      List.find?_eq_none.mpr (fun x _ => by simp [hall x])
    rw [hnone]
  refine ⟨hgm, ?_⟩
  rw [run_validation_pipeline_eq]
  have hsw : get_swot_analysis env.ai idea = swotExnFallback noModelMsg := by
    simp only [get_swot_analysis, hgm]
  have hmk : get_market_analysis env.ai idea = marketExnFallback noModelMsg := by
    simp only [get_market_analysis, hgm]
  have hfd : finalSummaryData env.ai = finalFallbackData := by
    simp only [finalSummaryData, hgm]
  rw [hsw, hmk, hfd]
  rfl

theorem C2_init_failure_contained_witness :
    get_model aiAllFail = Except.error noModelMsg ∧
    run_validation_pipeline envAllFail ideaTest = Except.ok reportAllFail :=
  ⟨(C2_init_failure_contained envAllFail ideaTest (fun _ => rfl)).1,
   (C2_init_failure_contained envAllFail ideaTest (fun _ => rfl)).2⟩

/-- C3, counterexample: a whitespace-only title is truthy, so the
placeholder is not substituted; after stripping, the report's
`idea_name` is the empty string, not `"Untitled Idea"`. -/
theorem C3_whitespace_title_kept_empty :
    (run_validation_pipeline envAllFail ideaWsTitle).map ValidationReport.idea_name
      = Except.ok "" ∧ ("Untitled Idea" : String) ≠ "" :=
  ⟨rfl, by decide⟩

/-- C3, amended: the report's `idea_name` is the trimmed title, with
the placeholder substituted only when the raw title is the empty string
(Python truthiness is tested before trimming), so a whitespace-only
title yields an empty `idea_name`. -/
theorem C3_title_normalization (env : PipelineEnv) (idea : IdeaInput) (r : ValidationReport)
    (h : run_validation_pipeline env idea = Except.ok r) :
    r.idea_name = if idea.title = "" then "Untitled Idea" else pyStrip idea.title := by
  rw [run_validation_pipeline_eq] at h
  exact (buildValidationReport_fields h).2.1

/-- A fenced, well-formed JSON object (C4 witness input). -/
def fencedObjText : String := "```json\n\x7b\"a\": 1\x7d\n```"

/-- C4: `safe_json_parse` is a total function of the input string (it
never raises by construction).  The empty string yields no result; when
the code-fence-stripped first-to-last brace span decodes to a JSON
object, exactly that object's members are returned; when it does not
decode to an object (non-JSON text, or a non-mapping value), the result
is no result. -/
theorem C4_safe_json_parse_spec :
    safe_json_parse "" = none ∧
    (∀ s kvs, jsonParse (extractCandidate s) = some (Json.obj kvs) →
        safe_json_parse s = some kvs) ∧
    (∀ s, (∀ kvs, jsonParse (extractCandidate s) ≠ some (Json.obj kvs)) →
        safe_json_parse s = none) := by
  refine ⟨rfl, ?_, ?_⟩
  · intro s kvs h
    by_cases hs : s = ""
    · subst hs
      rw [show jsonParse (extractCandidate "") = none from rfl] at h
      exact absurd h (by simp)
    · unfold safe_json_parse
      rw [if_neg hs]
      simp only [h]
  · intro s h
    unfold safe_json_parse
    by_cases hs : s = ""
    · rw [if_pos hs]
    · rw [if_neg hs]
      split
      · rename_i kvs hk
        exact absurd hk (h kvs)
      · rfl
      · rfl

theorem C4_safe_json_parse_spec_witness :
    safe_json_parse fencedObjText = some [("a", Json.num 1)] ∧
    safe_json_parse "plain text, not JSON" = none ∧
    safe_json_parse "[1, 2]" = none ∧
    safe_json_parse "" = none :=
  ⟨C4_safe_json_parse_spec.2.1 fencedObjText [("a", Json.num 1)] rfl,
   C4_safe_json_parse_spec.2.2 "plain text, not JSON" (fun kvs hk => by
     rw [show jsonParse (extractCandidate "plain text, not JSON") = none from rfl] at hk
     exact Option.noConfusion hk),
   C4_safe_json_parse_spec.2.2 "[1, 2]" (fun kvs hk => by
     rw [show jsonParse (extractCandidate "[1, 2]")
           = some (Json.arr [Json.num 1, Json.num 2]) from rfl] at hk
     simp at hk),
   C4_safe_json_parse_spec.1⟩

/-- C5: with no keywords, or either search credential unset, the search
returns the empty list with no network request issued — the
short-circuit, not an error. -/
theorem C5_search_short_circuit (env : SearchEnv) (kws : List String) (mr : Nat)
    (h : kws = [] ∨ env.key = none ∨ env.cx = none) :
    get_competitor_search env kws mr = ([], false) := by
  rcases h with h | h | h
  · simp [get_competitor_search, h]
  · simp [get_competitor_search, h, optFalsy]
  · simp [get_competitor_search, h, optFalsy]

theorem C5_search_short_circuit_witness :
    get_competitor_search ⟨none, some "CX", NetOutcome.exn "unreachable"⟩ ["kw"] 6
      = ([], false) ∧
    get_competitor_search ⟨some "K", some "CX", NetOutcome.exn "unreachable"⟩ [] 6
      = ([], false) :=
  ⟨C5_search_short_circuit ⟨none, some "CX", NetOutcome.exn "unreachable"⟩ ["kw"] 6
     (Or.inr (Or.inl rfl)),
   C5_search_short_circuit ⟨some "K", some "CX", NetOutcome.exn "unreachable"⟩ [] 6
     (Or.inl rfl)⟩

/-- A 302 response carrying a decodable body with one item. -/
def env302 : SearchEnv :=
  ⟨some "K", some "C", NetOutcome.response 302
    "\x7b\"items\": [\x7b\"title\": \"A\", \"link\": \"u\", \"snippet\": \"s\"\x7d]\x7d"⟩

/-- C6, counterexample: `raise_for_status` only raises for 4xx/5xx, so
a non-2xx 302 response whose body decodes with items is *not* converted
to an empty list — the claim's "any non-2xx HTTP response" is too
broad. -/
theorem C6_redirect_body_not_discarded :
    get_competitor_search env302 ["k1"] 6 = ([⟨"A", some "u", some "s"⟩], true) ∧
    ([(⟨"A", some "u", some "s"⟩ : Competitor)] : List Competitor) ≠ [] :=
  ⟨rfl, by decide⟩

/-- C6, amended: the search never raises past its boundary (it is a
total function into a list); transport errors, HTTP 4xx/5xx responses
and JSON decode failures all yield the empty list, as does a response
whose `items` list is empty — but 1xx/3xx responses are processed like
2xx ones. -/
theorem C6_search_failures_empty (env : SearchEnv) (kws : List String) (mr : Nat) :
    (∀ m, env.net = NetOutcome.exn m → (get_competitor_search env kws mr).1 = []) ∧
    (∀ st body, env.net = NetOutcome.response st body → 400 ≤ st → st < 600 →
        (get_competitor_search env kws mr).1 = []) ∧
    (∀ st body, env.net = NetOutcome.response st body → jsonParse body = none →
        (get_competitor_search env kws mr).1 = []) ∧
    (∀ st body kvs, env.net = NetOutcome.response st body →
        jsonParse body = some (Json.obj kvs) →
        pyDictGet kvs "items" (Json.arr []) = Json.arr [] →
        (get_competitor_search env kws mr).1 = []) := by
  refine ⟨?_, ?_, ?_, ?_⟩
  · intro m hnet
    rcases get_competitor_search_fst env kws mr with h | h
    · exact h
    · rw [h, hnet]; rfl
  · intro st body hnet h4 h6
    rcases get_competitor_search_fst env kws mr with h | h
    · exact h
    · rw [h, hnet]; exact searchResults_http_error mr h4 h6
  · intro st body hnet hj
    rcases get_competitor_search_fst env kws mr with h | h
    · exact h
    · rw [h, hnet]; exact searchResults_decode_failure mr hj
  · intro st body kvs hnet hj hi
    rcases get_competitor_search_fst env kws mr with h | h
    · exact h
    · rw [h, hnet]; exact searchResults_empty_items mr hj hi

theorem C6_search_failures_empty_witness :
    (get_competitor_search ⟨some "K", some "C", NetOutcome.exn "timeout"⟩ ["a"] 6).1 = [] ∧
    (get_competitor_search ⟨some "K", some "C", NetOutcome.response 500 "oops"⟩ ["a"] 6).1 = [] ∧
    (get_competitor_search ⟨some "K", some "C", NetOutcome.response 200 "not json"⟩ ["a"] 6).1 = [] ∧
    (get_competitor_search ⟨some "K", some "C",
        NetOutcome.response 200 "\x7b\"items\": []\x7d"⟩ ["a"] 6).1 = [] :=
  ⟨(C6_search_failures_empty ⟨some "K", some "C", NetOutcome.exn "timeout"⟩ ["a"] 6).1
     "timeout" rfl,
   (C6_search_failures_empty ⟨some "K", some "C", NetOutcome.response 500 "oops"⟩ ["a"] 6).2.1
     500 "oops" rfl (by decide) (by decide),
   (C6_search_failures_empty ⟨some "K", some "C", NetOutcome.response 200 "not json"⟩ ["a"] 6).2.2.1
     200 "not json" rfl rfl,
   (C6_search_failures_empty ⟨some "K", some "C",
       NetOutcome.response 200 "\x7b\"items\": []\x7d"⟩ ["a"] 6).2.2.2
     200 "\x7b\"items\": []\x7d" [("items", Json.arr [])] rfl rfl rfl⟩

/-- Generative environments whose SWOT call raises with two different
error messages. -/
def aiExnOne : AIEnv := { aiHappy with swotResp := GenOutcome.exn "err one" }

def aiExnTwo : AIEnv := { aiHappy with swotResp := GenOutcome.exn "err two" }

/-- C7, counterexample: the exception fallback embeds `str(e)`, so two
failing runs with different errors produce *different* fallback SWOT
values — the fallback is not "the same value on every failing run". -/
theorem C7_fallback_varies_with_error :
    get_swot_analysis aiExnOne ideaTest = swotExnFallback "err one" ∧
    get_swot_analysis aiExnTwo ideaTest = swotExnFallback "err two" ∧
    swotExnFallback "err one" ≠ swotExnFallback "err two" :=
  ⟨rfl, rfl, by decide⟩

/-- C7, amended: on any generation or decode failure the two analysis
operations return a fallback that is a deterministic function of the
failure: decode failures yield fixed diagnostic values, while raised
errors (including a failed model initialization) yield values embedding
the error text — so different errors give different fallbacks.  In
every fallback the undiagnostic lists are empty: SWOT opportunities and
threats, and the market keyword list. -/
theorem C7_deterministic_fallbacks (env : AIEnv) (idea : IdeaInput) :
    (∀ e, get_model env = Except.error e →
        get_swot_analysis env idea = swotExnFallback e ∧
        get_market_analysis env idea = marketExnFallback e) ∧
    (∀ m e, get_model env = Except.ok m → env.swotResp = GenOutcome.exn e →
        get_swot_analysis env idea = swotExnFallback e) ∧
    (∀ m e, get_model env = Except.ok m → env.marketResp = GenOutcome.exn e →
        get_market_analysis env idea = marketExnFallback e) ∧
    (∀ m t, get_model env = Except.ok m → env.swotResp = GenOutcome.text t →
        (safe_json_parse t = none ∨ safe_json_parse t = some []) →
        get_swot_analysis env idea = swotDecodeFallback) ∧
    (∀ m t, get_model env = Except.ok m → env.marketResp = GenOutcome.text t →
        (safe_json_parse t = none ∨ safe_json_parse t = some []) →
        get_market_analysis env idea = marketDecodeFallback) ∧
    (∀ e, (swotExnFallback e).opportunities = [] ∧ (swotExnFallback e).threats = [] ∧
        (marketExnFallback e).potential_keywords = []) ∧
    (swotDecodeFallback.opportunities = [] ∧ swotDecodeFallback.threats = [] ∧
        marketDecodeFallback.potential_keywords = []) := by
  refine ⟨?_, ?_, ?_, ?_, ?_, fun e => ⟨rfl, rfl, rfl⟩, ⟨rfl, rfl, rfl⟩⟩
  · intro e hgm
    exact ⟨by simp only [get_swot_analysis, hgm], by simp only [get_market_analysis, hgm]⟩
  · intro m e hgm hresp
    simp only [get_swot_analysis, hgm, hresp]
  · intro m e hgm hresp
    simp only [get_market_analysis, hgm, hresp]
  · intro m t hgm hresp hparse
    rcases hparse with hp | hp
    · simp only [get_swot_analysis, hgm, hresp, hp]
    · simp only [get_swot_analysis, hgm, hresp, hp, List.isEmpty_nil, if_true]
  · intro m t hgm hresp hparse
    rcases hparse with hp | hp
    · simp only [get_market_analysis, hgm, hresp, hp]
    · simp only [get_market_analysis, hgm, hresp, hp, List.isEmpty_nil, if_true]

theorem C7_deterministic_fallbacks_witness :
    get_swot_analysis aiAllFail ideaTest = swotExnFallback noModelMsg ∧
    get_swot_analysis { aiHappy with swotResp := GenOutcome.text "not json" } ideaTest
      = swotDecodeFallback ∧
    get_market_analysis { aiHappy with marketResp := GenOutcome.text "not json" } ideaTest
      = marketDecodeFallback :=
  ⟨((C7_deterministic_fallbacks aiAllFail ideaTest).1 noModelMsg rfl).1,
   (C7_deterministic_fallbacks { aiHappy with swotResp := GenOutcome.text "not json" }
      ideaTest).2.2.2.1 "gemini-2.5-flash" "not json" rfl rfl (Or.inl rfl),
   (C7_deterministic_fallbacks { aiHappy with marketResp := GenOutcome.text "not json" }
      ideaTest).2.2.2.2.1 "gemini-2.5-flash" "not json" rfl rfl (Or.inl rfl)⟩

theorem C3_title_normalization_witness :
    run_validation_pipeline ⟨aiAllFail, envAllFail.search, "rid-5"⟩ ideaPadded
      = Except.ok { reportAllFail with report_id := "rid-5", idea_name := "My Idea" } ∧
    ValidationReport.idea_name { reportAllFail with report_id := "rid-5", idea_name := "My Idea" }
      = (if ideaPadded.title = "" then "Untitled Idea" else pyStrip ideaPadded.title) :=
  ⟨rfl, C3_title_normalization ⟨aiAllFail, envAllFail.search, "rid-5"⟩ ideaPadded
    { reportAllFail with report_id := "rid-5", idea_name := "My Idea" } rfl⟩

set_option maxRecDepth 8000 in
/-- C8: the spec's end-to-end scenario.  With the mocked well-formed
SWOT, MarketAnalysis and final-summary responses and a search returning
two items, the pipeline returns a report with `idea_name = "Test"`,
`overall_score = 7.5` (the exact rational 15/2), two competitors, and
three recommended next steps. -/
theorem C8_end_to_end :
    run_validation_pipeline envHappy ideaTest = Except.ok reportHappy ∧
    reportHappy.idea_name = "Test" ∧
    reportHappy.overall_score = mkRat 15 2 ∧
    reportHappy.competitor_analysis.length = 2 ∧
    reportHappy.recommended_next_steps.length = 3 :=
  ⟨rfl, rfl, rfl, rfl, rfl⟩

/-- A provider item carrying an explicit `"link": null`. -/
def envNullLink : SearchEnv :=
  ⟨some "K", some "C", NetOutcome.response 200
    "\x7b\"items\": [\x7b\"title\": \"A\", \"link\": null, \"snippet\": \"x\"\x7d]\x7d"⟩

/-- C9, counterexample: `item.get("link", "#")` substitutes the
placeholder only for a *missing* key; an explicit null link is returned
as `None` and accepted by the `Optional[str]` field, so a produced
Competitor can have a null url. -/
theorem C9_null_link_gives_null_url :
    get_competitor_search envNullLink ["k1"] 6 = ([⟨"A", none, some "x"⟩], true) ∧
    (Competitor.url ⟨"A", none, some "x"⟩).isSome = false :=
  ⟨rfl, rfl⟩

/-- C9, amended: every produced Competitor has a (string) name and a
non-null snippet that is the whitespace-collapsed normalisation of the
provider text, the list never exceeds `max_results`, and an item with
missing title/link/snippet fields gets the placeholder tokens — but an
explicit null `link` value passes through as a null url. -/
theorem C9_competitor_shape (env : SearchEnv) (kws : List String) (mr : Nat) :
    (get_competitor_search env kws mr).1.length ≤ mr ∧
    (∀ c ∈ (get_competitor_search env kws mr).1,
        c.snippet.isSome = true ∧ ∃ s, c.snippet = some (" ".intercalate (pySplit s))) ∧
    convertItem (Json.obj []) =
      Except.ok ⟨"Untitled Result", some "#", some "No description available"⟩ := by
  refine ⟨?_, ?_, rfl⟩
  · rcases get_competitor_search_fst env kws mr with h | h
    · rw [h]; exact Nat.zero_le mr
    · rw [h]; exact (searchResults_shape env.net mr).1
  · rcases get_competitor_search_fst env kws mr with h | h
    · rw [h]; intro c hc; simp at hc
    · rw [h]; exact (searchResults_shape env.net mr).2

/-- A provider item with a snippet holding runs of spaces and a
newline. -/
def envMessySnippet : SearchEnv :=
  ⟨some "K", some "C", NetOutcome.response 200
    "\x7b\"items\": [\x7b\"title\": \"T\", \"link\": \"u\", \"snippet\": \"a  b\\nc\"\x7d]\x7d"⟩

def messyCompetitor : Competitor := ⟨"T", some "u", some "a b c"⟩

theorem C9_competitor_shape_witness :
    (get_competitor_search envMessySnippet ["k"] 6).1.length ≤ 6 ∧
    (Competitor.snippet messyCompetitor).isSome = true ∧
    get_competitor_search envMessySnippet ["k"] 6 = ([messyCompetitor], true) :=
  ⟨(C9_competitor_shape envMessySnippet ["k"] 6).1,
   ((C9_competitor_shape envMessySnippet ["k"] 6).2.1 messyCompetitor (by
      rw [show (get_competitor_search envMessySnippet ["k"] 6).1 = [messyCompetitor] from rfl]
      exact List.mem_singleton_self messyCompetitor)).1,
   rfl⟩

/-- C10: when the final summary parses to a dict, each of the three
report fields drawn from it falls back to its per-key default when the
key is missing — `overall_score` 1.0, `executive_summary`
`"No summary could be generated."`, `recommended_next_steps` `[]` — so
the returned step list can have length 0 with no diagnostic fallback
steps substituted. -/
theorem C10_missing_final_keys_defaults (env : PipelineEnv) (idea : IdeaInput)
    (m t : String) (kvs : List (String × Json)) (r : ValidationReport)
    (hm : get_model env.ai = Except.ok m)
    (ht : env.ai.finalResp = GenOutcome.text t)
    (hp : safe_json_parse t = some kvs)
    (hr : run_validation_pipeline env idea = Except.ok r) :
    (hasKey kvs "overall_score" = false → r.overall_score = 1) ∧
    (hasKey kvs "executive_summary" = false →
        r.executive_summary = "No summary could be generated.") ∧
    (hasKey kvs "recommended_next_steps" = false → r.recommended_next_steps = []) := by
  have hfd : finalSummaryData env.ai = kvs := by
    simp only [finalSummaryData, hm, ht, hp]
  rw [run_validation_pipeline_eq, hfd] at hr
  have hfields := buildValidationReport_fields hr
  refine ⟨?_, ?_, ?_⟩
  · intro hk
    have hd := pyDictGet_of_hasKey_false hk (Json.num 1)
    have hv := hfields.2.2.2.2.2.1
    rw [hd] at hv
    have hv2 : Except.ok (1 : Rat) = Except.ok r.overall_score := hv
    injection hv2 with hv3
    exact hv3.symm
  · intro hk
    have hd := pyDictGet_of_hasKey_false hk (Json.str "No summary could be generated.")
    have hv := hfields.2.2.2.2.2.2.1
    rw [hd] at hv
    have hv2 : Except.ok "No summary could be generated." = Except.ok r.executive_summary := hv
    injection hv2 with hv3
    exact hv3.symm
  · intro hk
    have hd := pyDictGet_of_hasKey_false hk (Json.arr [])
    have hv := hfields.2.2.2.2.2.2.2.1
    rw [hd] at hv
    have hv2 : Except.ok ([] : List String) = Except.ok r.recommended_next_steps := hv
    injection hv2 with hv3
    exact hv3.symm

theorem C10_missing_final_keys_defaults_witness :
    run_validation_pipeline envMissingKeys ideaTest = Except.ok reportMissingKeys ∧
    reportMissingKeys.executive_summary = "No summary could be generated." ∧
    reportMissingKeys.recommended_next_steps = [] ∧
    reportMissingKeys.recommended_next_steps.length = 0 :=
  ⟨rfl,
   (C10_missing_final_keys_defaults envMissingKeys ideaTest "gemini-2.5-flash"
      "\x7b\"overall_score\": 7.0\x7d" [("overall_score", Json.num 7)] reportMissingKeys
      rfl rfl rfl rfl).2.1 rfl,
   (C10_missing_final_keys_defaults envMissingKeys ideaTest "gemini-2.5-flash"
      "\x7b\"overall_score\": 7.0\x7d" [("overall_score", Json.num 7)] reportMissingKeys
      rfl rfl rfl rfl).2.2 rfl,
   rfl⟩

end TrendSpark
